import Mathlib

/-
Verification of the Story Test structural-completeness analyzer.

Shallow embedding of three program units:
* `ST`    — the binary (IL) frontend in `scripts/story_test.py`
           (`ILAnalyzer`, `StoryTestValidator` and its Act checks);
* `Core`  — the Unity-safe core validator in `storytest/validator.py`
           (`_validate_type`, the stateful `validate_assembly` accumulator);
* `PyVal` — the Python source frontend in `storytest/python_validator.py`
           (token scan, AST pattern matchers, `validate_python_path`).

Machine bytes of an IL method body are modelled as `List Nat`; .NET
reflection objects are modelled as records carrying exactly the attributes
the Python code reads.  Python exceptions that the code catches are made
explicit with `Option` (a `none` marks a raised-and-swallowed exception).
-/

/-- Python `pat in s` substring containment on strings. -/
def strContains (s pat : String) : Bool :=
  (List.range (s.toList.length + 1)).any fun i =>
    List.isPrefixOf pat.toList (s.toList.drop i)

/-- Python `s.startswith(pat)`. -/
def strStarts (s pat : String) : Bool := List.isPrefixOf pat.toList s.toList

/-- Python `s.endswith(pat)`. -/
def strEnds (s pat : String) : Bool := List.isSuffixOf pat.toList s.toList

/-- Python `s.lower()` (ASCII, which covers every string the code compares). -/
def strLower (s : String) : String := String.mk (s.toList.map Char.toLower)

/-- Python `s.strip()`. -/
def strTrim (s : String) : String :=
  String.mk (((s.toList.dropWhile Char.isWhitespace).reverse.dropWhile
    Char.isWhitespace).reverse)

/-- StoryViolationType enum, identical in `scripts/story_test.py` and
`storytest/validator.py`. -/
inductive StoryViolationType
  | incompleteImplementation
  | debuggingCode
  | unusedCode
  | prematureCelebration
  | other
deriving DecidableEq, Repr

/-- StoryViolation record: `__init__` defaults `file_path=""`, `line_number=0`. -/
structure StoryViolation where
  type_name : String
  member : String
  violation : String
  violation_type : StoryViolationType
  file_path : String := ""
  line_number : Nat := 0
deriving DecidableEq, Repr

/-- Violation message constants, verbatim from the source (modulo the
flag emoji and an apostrophe, which the messages here spell out). -/
def ni_message : String :=
  "Method contains NotImplementedException indicating TODO implementation"

def default_return_message : String :=
  "Method only returns default value without implementation"

def suspicious_message : String :=
  "Suspiciously simple method - returns constant/null/default with no logic"

def phantom_message : String :=
  "Phantom property detected - name suggests it is unused"

def stub_message : String :=
  "Function is a stub (pass/ellipsis only)"

def hollow_enum_message : String :=
  "Enum has minimal/placeholder members (hollow enum)"

namespace ST

/-- ILAnalyzer.contains_throw_not_implemented: scans for byte `0x73`
(newobj) at index `i` with byte `0x7A` (throw) at the fixed offset `i+5`
(the 4 operand bytes of newobj in between); loop bound `range(len-4)`. -/
def contains_throw_not_implemented (il : List Nat) : Bool :=
  (List.range (il.length - 4)).any fun i =>
    il.getD i 0 == 0x73 && decide (i + 5 < il.length) && il.getD (i + 5) 0 == 0x7A

/-- ILAnalyzer.is_only_default_return: non-void return type, body of at
most 8 bytes containing one of the load-constant opcodes `0x14/0x16/0x17`
immediately followed by `ret` (`0x2A`). -/
def is_only_default_return (returnType : String) (il : List Nat) : Bool :=
  if returnType == "System.Void" then false
  else if il.length == 0 then false
  else if il.length ≤ 8 then
    (List.range (il.length - 1)).any fun i =>
      (il.getD i 0 == 0x14 || il.getD i 0 == 0x16 || il.getD i 0 == 0x17)
        && il.getD (i + 1) 0 == 0x2A
  else false

/-- MethodInfo as read by the validator: name, `str(ReturnType)`, modifier
flags, `DeclaringType` (by name; equality stands for .NET type identity),
attribute type-name strings, and `GetMethodBody` bytes (`none` when the
method has no body). -/
structure MethodInfo where
  name : String
  returnType : String := ""
  isAbstract : Bool := false
  isVirtual : Bool := false
  isSpecialName : Bool := false
  declaringType : String := ""
  attributes : List String := []
  methodBody : Option (List Nat) := none
deriving DecidableEq, Repr

/-- PropertyInfo as read by the validator.  Reflection exposes
`DeclaringType`, but `_validate_property` never consults it. -/
structure PropertyInfo where
  name : String
  declaringType : String := ""
  attributes : List String := []
deriving DecidableEq, Repr

/-- FieldInfo as returned by `GetFields`. -/
structure FieldInfo where
  name : String
deriving DecidableEq, Repr

/-- A reflected type: name, kind flags, `Assembly.Location`, members and
(for enums) `Enum.GetNames` values, plus its own custom attributes. -/
structure DotNetType where
  name : String
  isEnum : Bool := false
  isInterface : Bool := false
  isAbstract : Bool := false
  location : String := ""
  methods : List MethodInfo := []
  properties : List PropertyInfo := []
  fields : List FieldInfo := []
  enumValues : List String := []
  attributes : List String := []
deriving DecidableEq, Repr

/-- `_has_story_ignore_attribute`: any attribute whose type string contains
"StoryIgnore". -/
def has_story_ignore (attrs : List String) : Bool :=
  attrs.any fun a => strContains a "StoryIgnore"

/-- `_is_compiler_generated`: the name-marker tests, in source order. -/
def is_compiler_generated (member_name type_name : String) : Bool :=
  strContains type_name "<" || strContains type_name ">" || strContains type_name "$" ||
  strContains type_name "d__" ||
  strContains member_name "<" || strContains member_name ">" || strContains member_name "$" ||
  strContains member_name "b__" ||
  strContains member_name "k__BackingField" ||
  (strContains member_name "." &&
    (strContains member_name "IEnumerator" || strContains member_name "IAsyncStateMachine"))

/-- Acts 1 and 2, `_check_todo_and_placeholders`: the NotImplemented
pattern is checked first and returns early, suppressing the
default-return check for that member. -/
def check_todo_and_placeholders (m : MethodInfo) (type_name file_path : String) :
    List StoryViolation :=
  match m.methodBody with
  | none => []
  | some il =>
    if contains_throw_not_implemented il then
      [{ type_name := type_name, member := m.name,
         violation := ni_message,
         violation_type := .incompleteImplementation, file_path := file_path }]
    else if is_only_default_return m.returnType il then
      [{ type_name := type_name, member := m.name,
         violation := default_return_message,
         violation_type := .incompleteImplementation, file_path := file_path }]
    else []

/-- Act 4, `_check_unsealed_abstract`. -/
def check_unsealed_abstract (m : MethodInfo) (t : DotNetType) (file_path : String) :
    List StoryViolation :=
  if m.isAbstract && !t.isAbstract && !t.isInterface then
    [{ type_name := t.name, member := m.name,
       violation := "Abstract method in non-abstract class (unsealed narrative element)",
       violation_type := .incompleteImplementation, file_path := file_path }]
  else []

/-- Act 5, `_check_debug_only`. -/
def check_debug_only (m : MethodInfo) (type_name file_path : String) :
    List StoryViolation :=
  if strStarts m.name "Debug" || strStarts m.name "Test" || strContains m.name "Temp" then
    if !(m.attributes.any fun a => strContains a "Obsolete") then
      [{ type_name := type_name, member := m.name,
         violation := "Debug/Test method without Obsolete attribute (should be temporary)",
         violation_type := .debuggingCode, file_path := file_path }]
    else []
  else []

/-- Act 6, `_check_phantom_props`: name heuristic only; no
compiler-generated or DeclaringType filtering happens on the property path. -/
def check_phantom_props (p : PropertyInfo) (type_name file_path : String) :
    List StoryViolation :=
  if strContains p.name "Unused" || strContains p.name "Temp" || strContains p.name "Placeholder" then
    [{ type_name := type_name, member := p.name,
       violation := phantom_message,
       violation_type := .unusedCode, file_path := file_path }]
  else []

/-- Act 7, `_check_cold_methods`: non-abstract, non-virtual method whose
body is at most 3 bytes. -/
def check_cold_methods (m : MethodInfo) (type_name file_path : String) :
    List StoryViolation :=
  if m.isAbstract || m.isVirtual then []
  else
    match m.methodBody with
    | none => []
    | some il =>
      if il.length ≤ 3 then
        [{ type_name := type_name, member := m.name,
           violation := "Cold method detected - method body is empty or minimal",
           violation_type := .unusedCode, file_path := file_path }]
      else []

/-- Act 8, `_check_hollow_enums`. -/
def check_hollow_enums (t : DotNetType) (file_path : String) : List StoryViolation :=
  if t.enumValues.length ≤ 1 then
    [{ type_name := t.name, member := t.name,
       violation := "Hollow enum detected - enum has no or minimal values defined",
       violation_type := .unusedCode, file_path := file_path }]
  else
    let placeholder_names := t.enumValues.filter fun n =>
      strContains n "Placeholder" || strContains n "TODO" || strContains n "Temp"
    if !placeholder_names.isEmpty then
      [{ type_name := t.name, member := t.name,
         violation := "Hollow enum detected - contains placeholder values: " ++
           String.intercalate ", " placeholder_names,
         violation_type := .unusedCode, file_path := file_path }]
    else []

/-- Act 9, `_check_premature_celebrations`. -/
def check_premature_celebrations (m : MethodInfo) (type_name file_path : String) :
    List StoryViolation :=
  if m.attributes.any (fun a =>
      strContains a "Complete" || strContains a "Finished" || strContains a "Done") then
    match m.methodBody with
    | none => []
    | some il =>
      if contains_throw_not_implemented il then
        [{ type_name := type_name, member := m.name,
           violation := "Premature celebration - marked as complete but throws NotImplementedException",
           violation_type := .prematureCelebration, file_path := file_path }]
      else []
  else []

/-- Act 10 condition of `_check_suspiciously_simple`.  The source evaluates
`len(il_bytes) <= 5 and (ILAnalyzer.is_constant_return(il_bytes) or
ILAnalyzer.is_null_return(il_bytes) or ILAnalyzer.is_only_default_return(...))`
inside `try/except Exception: pass`.  The `ILAnalyzer` class defines neither
`is_constant_return` nor `is_null_return`, so whenever the length guard
passes, the attribute lookup raises `AttributeError` (modelled as `none`);
when the guard fails, `and` short-circuits to `False`. -/
def suspiciously_simple_cond (il : List Nat) : Option Bool :=
  if il.length ≤ 5 then none else some false

/-- Act 10, `_check_suspiciously_simple`: a raised exception is swallowed
by the bare `except`, appending nothing. -/
def check_suspiciously_simple (m : MethodInfo) (type_name file_path : String) :
    List StoryViolation :=
  match m.methodBody with
  | none => []
  | some il =>
    match suspiciously_simple_cond il with
    | none => []
    | some true =>
      [{ type_name := type_name, member := m.name,
         violation := suspicious_message,
         violation_type := .incompleteImplementation, file_path := file_path }]
    | some false => []

/-- Act 11 body of `_check_dead_code`, before its `try/except`.  The helpers
`ILAnalyzer.is_field_read`, `ILAnalyzer.is_method_invoked` and
`ILAnalyzer.is_property_accessed` do not exist, so the first field (resp.
first non-abstract method, first property) raises `AttributeError`
(modelled as `none`) before any violation is appended; abstract methods
short-circuit `not method.IsAbstract and ...` without a lookup. -/
def dead_code_body (t : DotNetType) : Option (List StoryViolation) :=
  if !t.fields.isEmpty then none
  else if t.methods.any (fun m => !m.isAbstract) then none
  else if !t.properties.isEmpty then none
  else some []

/-- Act 11, `_check_dead_code`: the blanket `except Exception: pass`
swallows the raised `AttributeError`. -/
def check_dead_code (t : DotNetType) : List StoryViolation :=
  match dead_code_body t with
  | none => []
  | some vs => vs

/-- Exemption gate of `_validate_method`: StoryIgnore attribute,
compiler-generated name markers, special names, and inherited members
(`method.DeclaringType != type_obj`). -/
def method_exempt (t : DotNetType) (m : MethodInfo) : Bool :=
  has_story_ignore m.attributes ||
  is_compiler_generated m.name t.name ||
  m.isSpecialName ||
  m.declaringType != t.name

/-- `_validate_method`: gate, then Acts 1/2, 4, 5, 7, 9, 10, 11 in order. -/
def validate_method (t : DotNetType) (m : MethodInfo) (file_path : String) :
    List StoryViolation :=
  if method_exempt t m then []
  else
    check_todo_and_placeholders m t.name file_path ++
    check_unsealed_abstract m t file_path ++
    check_debug_only m t.name file_path ++
    check_cold_methods m t.name file_path ++
    check_premature_celebrations m t.name file_path ++
    check_suspiciously_simple m t.name file_path ++
    check_dead_code t

/-- `_validate_property`: only the StoryIgnore gate, then Act 6. -/
def validate_property (t : DotNetType) (p : PropertyInfo) (file_path : String) :
    List StoryViolation :=
  if has_story_ignore p.attributes then []
  else check_phantom_props p t.name file_path

/-- Act 3, `_check_incomplete_classes`. -/
def check_incomplete_classes (t : DotNetType) (file_path : String) :
    List StoryViolation :=
  if t.isInterface || t.isAbstract then []
  else
    let abstract_methods := t.methods.filter (·.isAbstract)
    if !abstract_methods.isEmpty then
      [{ type_name := t.name, member := t.name,
         violation := "Class has unimplemented abstract methods: " ++
           String.intercalate ", " (abstract_methods.map (·.name)),
         violation_type := .incompleteImplementation, file_path := file_path }]
    else []

/-- `_validate_type`: StoryIgnore gate, then Act 3, Act 8 for enums, then
all methods, then all properties, reported in discovery order. -/
def validate_type (t : DotNetType) : List StoryViolation :=
  if has_story_ignore t.attributes then []
  else
    check_incomplete_classes t t.location ++
    (if t.isEnum then check_hollow_enums t t.location else []) ++
    t.methods.flatMap (fun m => validate_method t m t.location) ++
    t.properties.flatMap (fun p => validate_property t p t.location)

/-- `validate_assembly` of `scripts/story_test.py`: resets
`self.violations = []` on entry, so its output depends only on the types
of the assembly under analysis. -/
def validate_assembly (types : List DotNetType) : List StoryViolation :=
  types.flatMap validate_type

end ST

namespace Core

/-- A method as read by `storytest/validator.py`. -/
structure CoreMethod where
  name : String
  isSpecialName : Bool := false
  methodBody : Option (List Nat) := none
deriving DecidableEq, Repr

/-- A reflected type as read by `storytest/validator.py`; `assemblyName`
is `Assembly.GetName().Name` of the owning assembly. -/
structure CoreType where
  name : String
  fullName : String := ""
  isEnum : Bool := false
  assemblyName : String := ""
  location : String := ""
  methods : List CoreMethod := []
deriving DecidableEq, Repr

/-- `_contains_not_implemented_exception`: bodies shorter than 10 bytes are
rejected, then both `0x73` and `0x7A` must occur anywhere in the body. -/
def contains_not_implemented_exception (il : List Nat) : Bool :=
  if il.length < 10 then false
  else il.contains 0x73 && il.contains 0x7A

/-- Skip filter of `_validate_type` over methods, in source order
(the `and` over enum interface names binds tighter than the `or` chain). -/
def core_skip_method (t : CoreType) (m : CoreMethod) : Bool :=
  m.isSpecialName ||
  strStarts m.name "<" ||
  m.name == "Finalize" ||
  m.name == ".ctor" ||
  m.name == ".cctor" ||
  ((m.name == "HasFlag" || m.name == "CompareTo" || m.name == "ToString" ||
    m.name == "GetHashCode" || m.name == "Equals") && t.isEnum) ||
  (m.name == "CombineImpl" || m.name == "GetObjectData" || m.name == "GetInvocationList" ||
   m.name == "BeginInvoke" || m.name == "EndInvoke") ||
  strStarts m.name "System.IConvertible." ||
  strContains t.fullName "Test" ||
  strContains t.assemblyName "Tests"

/-- Per-method body of `_validate_type`: NotImplementedException scan and
the 2-byte empty-method check, both appended when they match. -/
def core_validate_method (t : CoreType) (m : CoreMethod) (fp : String) :
    List StoryViolation :=
  if core_skip_method t m then []
  else
    match m.methodBody with
    | none => []
    | some il =>
      (if contains_not_implemented_exception il then
        [{ type_name := t.name, member := m.name,
           violation := "Method contains NotImplementedException",
           violation_type := .incompleteImplementation, file_path := fp }]
      else []) ++
      (if il.length ≤ 2 then
        [{ type_name := t.name, member := m.name,
           violation := "Empty method - no implementation",
           violation_type := .incompleteImplementation, file_path := fp }]
      else [])

/-- `_validate_type` of `storytest/validator.py`. -/
def core_validate_type (t : CoreType) : List StoryViolation :=
  if strStarts t.name "<" || strStarts t.name "__" then []
  else t.methods.flatMap fun m => core_validate_method t m t.location

/-- An assembly input to `validate_assembly`: its reflected types plus the
violations produced by the assembly-level Acts 12-13
(`_validate_assembly_level` reads an on-disk mental-model configuration;
for a fixed, unchanged input set its outcome is a fixed list). -/
structure CoreAssembly where
  types : List CoreType
  assemblyLevel : List StoryViolation := []
deriving DecidableEq, Repr

/-- The violations one pass of `validate_assembly` appends for an input. -/
def core_run (a : CoreAssembly) : List StoryViolation :=
  a.types.flatMap core_validate_type ++ a.assemblyLevel

/-- `validate_assembly` of `storytest/validator.py`: `self.violations` is
initialised once in `__init__` and never reset, so each call appends this
run onto the instance state and returns the whole accumulated list.
Result: (new instance state, returned list). -/
def core_validate_assembly (state : List StoryViolation) (a : CoreAssembly) :
    List StoryViolation × List StoryViolation :=
  let st := state ++ core_run a
  (st, st)

end Core

namespace PyVal

/-- Python constant literals distinguished by the source checks. -/
inductive PyConst
  | str (s : String)
  | ellipsis
  | intLit (n : Int)
  | boolLit (b : Bool)
  | noneLit
deriving DecidableEq, Repr

/-- Expressions, kept to the shapes the validator inspects: `ast.Constant`,
`ast.Name`, a call (only its callee matters), attribute access (only the
final attribute name matters), and everything else. -/
inductive PyExpr
  | const (c : PyConst)
  | name (id : String)
  | call (func : PyExpr)
  | attribute (attr : String)
  | otherE
deriving DecidableEq, Repr

/-- Assignment targets: `ast.Name` targets are counted as enum members. -/
inductive PyTarget
  | nameT (id : String)
  | otherT
deriving DecidableEq, Repr

/-- Statements, kept to the shapes the validator inspects. -/
inductive PyStmt
  | passS
  | expr (value : PyExpr)
  | ret (value : Option PyExpr) (lineno : Nat)
  | raiseS (exc : Option PyExpr) (lineno : Nat)
  | assign (targets : List PyTarget)
  | otherS
deriving DecidableEq, Repr

/-- ast.FunctionDef / ast.AsyncFunctionDef. -/
structure FunctionDef where
  name : String
  body : List PyStmt
  lineno : Nat := 0
deriving DecidableEq, Repr

/-- ast.ClassDef. -/
structure ClassDef where
  name : String
  bases : List PyExpr := []
  body : List PyStmt
  lineno : Nat := 0
deriving DecidableEq, Repr

/-- Nodes of `ast.walk` that the validator reacts to. -/
inductive PyNode
  | func (f : FunctionDef)
  | cls (c : ClassDef)
deriving DecidableEq, Repr

/-- The docstring test used twice in the source: an expression statement
whose value is a string constant. -/
def is_docstring_expr (s : PyStmt) : Bool :=
  match s with
  | .expr (.const (.str _)) => true
  | _ => false

/-- `_is_pass_or_ellipsis_only`: every statement is `pass`, a bare `...`
expression, or a string-literal expression; an empty body passes. -/
def is_pass_or_ellipsis_only (body : List PyStmt) : Bool :=
  body.all fun stmt =>
    match stmt with
    | .passS => true
    | .expr (.const .ellipsis) => true
    | .expr (.const (.str _)) => true
    | _ => false

/-- `_returns_constant_only`: strip docstrings; the remainder must be a
single `return` of an `ast.Constant`.  Returns the return line number. -/
def returns_constant_only (f : FunctionDef) : Option Nat :=
  match f.body.filter (fun s => !is_docstring_expr s) with
  | [PyStmt.ret v ln] =>
    match v with
    | some (.const _) => some ln
    | _ => none
  | _ => none

/-- Base-name extraction of `_detect_enum_hollow`:
`getattr(b, "id", None) or getattr(b, "attr", None)`. -/
def base_name (b : PyExpr) : Option String :=
  match b with
  | .name id => some id
  | .attribute a => some a
  | _ => none

/-- The closed placeholder-name set `_PLACEHOLDER_NAMES`. -/
def placeholder_names : List String :=
  ["none", "default", "todo", "temp", "placeholder", "unknown"]

/-- Member names collected by `_detect_enum_hollow`: `ast.Name` targets of
plain assignments in the class body. -/
def assign_members (body : List PyStmt) : List String :=
  body.flatMap fun stmt =>
    match stmt with
    | .assign targets =>
      targets.filterMap fun t =>
        match t with
        | .nameT id => some id
        | .otherT => none
    | _ => []

/-- Dunder filter of `_detect_enum_hollow`. -/
def is_dunder (m : String) : Bool :=
  strStarts m "__" && strEnds m "__"

/-- Whether the class inherits the enumeration base type: some base name
lowercases to "enum" or "intenum". -/
def inherits_enum_base (c : ClassDef) : Bool :=
  let normalized := (c.bases.filterMap base_name).map strLower
  normalized.contains "enum" || normalized.contains "intenum"

/-- Count of non-dunder, non-placeholder-named assigned members. -/
def meaningful_member_count (c : ClassDef) : Nat :=
  (((assign_members c.body).filter fun m => !is_dunder m).filter fun m =>
    !placeholder_names.contains (strLower m)).length

/-- `_detect_enum_hollow`. -/
def detect_enum_hollow (c : ClassDef) : Bool :=
  if !inherits_enum_base c then false
  else meaningful_member_count c ≤ 1

/-- NotImplementedError raise scan over a function body (source lines
205-224): for each direct `raise` statement whose exception is the name
`NotImplementedError` or a call of it, one violation. -/
def raise_violations (modName filePath : String) (f : FunctionDef) :
    List StoryViolation :=
  f.body.flatMap fun stmt =>
    match stmt with
    | .raiseS exc ln =>
      let nm : Option String :=
        match exc with
        | some (.name id) => some id
        | some (.call (.name id)) => some id
        | _ => none
      match nm with
      | some n =>
        if n == "NotImplementedError" then
          [{ type_name := modName, member := f.name,
             violation := "Function raises NotImplementedError",
             violation_type := .incompleteImplementation,
             file_path := filePath, line_number := ln }]
        else []
      | none => []
    | _ => []

/-- Per-function processing: raise scan, stub check, constant-only return. -/
def process_function (modName filePath : String) (f : FunctionDef) :
    List StoryViolation :=
  raise_violations modName filePath f ++
  (if is_pass_or_ellipsis_only f.body then
    [{ type_name := modName, member := f.name,
       violation := stub_message,
       violation_type := .incompleteImplementation,
       file_path := filePath, line_number := f.lineno }]
  else []) ++
  (match returns_constant_only f with
  | some ln =>
    [{ type_name := modName, member := f.name,
       violation := "Function returns a constant literal (suspiciously simple)",
       violation_type := .prematureCelebration,
       file_path := filePath, line_number := ln }]
  | none => [])

/-- Placeholder-class check on the docstring-stripped class body. -/
def placeholder_class_violations (modName filePath : String) (c : ClassDef) :
    List StoryViolation :=
  if is_pass_or_ellipsis_only (c.body.filter fun s => !is_docstring_expr s) then
    [{ type_name := modName, member := c.name,
       violation := "Class is a placeholder (no members)",
       violation_type := .unusedCode,
       file_path := filePath, line_number := c.lineno }]
  else []

/-- Hollow-enum check. -/
def hollow_enum_violations (modName filePath : String) (c : ClassDef) :
    List StoryViolation :=
  if detect_enum_hollow c then
    [{ type_name := modName, member := c.name,
       violation := hollow_enum_message,
       violation_type := .other,
       file_path := filePath, line_number := c.lineno }]
  else []

/-- Per-class processing: placeholder-class check on the docstring-stripped
body, then the hollow-enum check. -/
def process_class (modName filePath : String) (c : ClassDef) :
    List StoryViolation :=
  placeholder_class_violations modName filePath c ++
  hollow_enum_violations modName filePath c

/-- Dispatch of the `ast.walk` loop body over one node. -/
def process_node (modName filePath : String) : PyNode → List StoryViolation
  | .func f => process_function modName filePath f
  | .cls c => process_class modName filePath c

/-- One token of `tokenize.generate_tokens`. -/
structure Token where
  isComment : Bool
  text : String
  startLine : Nat
deriving DecidableEq, Repr

/-- One source file as the validator sees it: the token stream (for the
comment scan) and the parse outcome (`none` when `ast.parse` raises
SyntaxError). -/
structure PyFile where
  path : String
  moduleName : String
  tokens : List Token := []
  parsed : Option (List PyNode) := none
deriving DecidableEq, Repr

/-- `_has_todo_or_fixme_tokens`: comment tokens whose lowercased text
contains "todo" or "fixme", with their 1-based start line. -/
def todo_or_fixme_hits (tokens : List Token) : List (Nat × String) :=
  tokens.filterMap fun tok =>
    if tok.isComment then
      if strContains (strLower tok.text) "todo" || strContains (strLower tok.text) "fixme" then
        some (tok.startLine, strTrim tok.text)
      else none
    else none

/-- The module-level TODO/FIXME violation built in `validate_python_path`. -/
def todo_violation (f : PyFile) (hit : Nat × String) : StoryViolation :=
  { type_name := f.moduleName, member := "<module>",
    violation := "Comment contains TODO/FIXME: " ++ hit.2,
    violation_type := .incompleteImplementation,
    file_path := f.path, line_number := hit.1 }

/-- Per-file body of the `validate_python_path` loop: the comment scan runs
first and its violations are appended before `ast.parse` is attempted; a
SyntaxError then `continue`s, keeping those violations. -/
def process_file (f : PyFile) : List StoryViolation :=
  let todo := (todo_or_fixme_hits f.tokens).map (todo_violation f)
  match f.parsed with
  | none => todo
  | some nodes => todo ++ nodes.flatMap (process_node f.moduleName f.path)

/-- `validate_python_path` over the discovered file list. -/
def validate_python_path (files : List PyFile) : List StoryViolation :=
  files.flatMap process_file

end PyVal

/-- Bool test for the IncompleteImplementation kind. -/
def is_incomplete (v : StoryViolation) : Bool :=
  match v.violation_type with
  | .incompleteImplementation => true
  | _ => false

/-- Bool test for a specific violation message. -/
def has_message (msg : String) (v : StoryViolation) : Bool :=
  v.violation == msg

/-- Modelled from the claim wording of the Throw-NotImplemented rule, for
comparison with the source predicate: a THROW opcode (`0x7A` in ECMA-335)
followed within a short lookahead window of up to 5 bytes by the
construct-exception-object opcode (`newobj`, `0x73`). -/
def spec_throw_then_construct (il : List Nat) : Bool :=
  (List.range il.length).any fun i =>
    il.getD i 0 == 0x7A &&
      (List.range 5).any fun j =>
        decide (i + j + 1 < il.length) && il.getD (i + j + 1) 0 == 0x73

/-- Example input: a type whose only field is never referenced anywhere. -/
def c1Method : ST.MethodInfo :=
  { name := "Run", returnType := "System.Void", declaringType := "Widget",
    methodBody := some [0x00, 0x2A] }

def c1Type : ST.DotNetType :=
  { name := "Widget", methods := [c1Method], fields := [{ name := "unusedField" }] }

/-- Example input: a non-void method whose 2-byte body is `ldc.i4.0; ret`,
within the 5-byte bound of the suspiciously-simple rule. -/
def c2Method : ST.MethodInfo :=
  { name := "GetValue", returnType := "System.Int32", declaringType := "Widget",
    methodBody := some [0x16, 0x2A] }

def c2Type : ST.DotNetType := { name := "Widget", methods := [c2Method] }

/-- Example input: an assembly with one empty (1-byte `ret`) method. -/
def c3Method : Core.CoreMethod := { name := "DoNothing", methodBody := some [0x2A] }

def c3Type : Core.CoreType :=
  { name := "Widget", fullName := "Acme.Widget", assemblyName := "Acme",
    methods := [c3Method] }

def c3Assembly : Core.CoreAssembly := { types := [c3Type] }

/-- Example input: a body with THROW (`0x7A`) followed 5 bytes later by
`newobj` (`0x73`) — the order the claim describes. -/
def c4Method : ST.MethodInfo :=
  { name := "DoWork", returnType := "System.Int32", declaringType := "Widget",
    methodBody := some [0x7A, 0x00, 0x00, 0x00, 0x00, 0x73] }

def c4Type : ST.DotNetType := { name := "Widget", methods := [c4Method] }

/-- Example input: the order the code detects, `newobj` then THROW. -/
def c4CodeOrderMethod : ST.MethodInfo :=
  { name := "DoWork", returnType := "System.Void", declaringType := "Widget",
    methodBody := some [0x73, 0x00, 0x00, 0x00, 0x00, 0x7A] }

def c4CodeOrderType : ST.DotNetType := { name := "Widget", methods := [c4CodeOrderMethod] }

/-- Example input: a file whose comment stream holds a TODO marker but
whose source does not parse. -/
def c5File : PyVal.PyFile :=
  { path := "bad.py", moduleName := "bad",
    tokens := [{ isComment := true, text := "# TODO: fix this", startLine := 1 }],
    parsed := none }

/-- Example input: a sibling file that parses. -/
def c5GoodFile : PyVal.PyFile :=
  { path := "good.py", moduleName := "good", tokens := [],
    parsed := some [.func { name := "f", body := [.passS], lineno := 1 }] }

/-- Example input: scenario A, non-void `[ldc.i4.0, ret]`. -/
def c6Method : ST.MethodInfo :=
  { name := "GetCount", returnType := "System.Int32", declaringType := "Widget",
    methodBody := some [0x16, 0x2A] }

def c6Type : ST.DotNetType := { name := "Widget", methods := [c6Method] }

/-- Example input: an 8-byte-bounded body matching the default-return shape
and the NotImplemented shape at once, triggering the first-match-wins
suppression. -/
def c6SuppressedMethod : ST.MethodInfo :=
  { name := "GetCount", returnType := "System.Int32", declaringType := "Widget",
    methodBody := some [0x73, 0x16, 0x2A, 0x00, 0x00, 0x7A] }

def c6SuppressedType : ST.DotNetType := { name := "Widget", methods := [c6SuppressedMethod] }

/-- Example input: a function whose body is a docstring followed by pass. -/
def c7Function : PyVal.FunctionDef :=
  { name := "do_stuff", body := [.expr (.const (.str "docstring")), .passS], lineno := 7 }

/-- Scenario B input: `class Color(Enum): RED = 1`. -/
def colorOneMember : PyVal.ClassDef :=
  { name := "Color", bases := [.name "Enum"], body := [.assign [.nameT "RED"]], lineno := 1 }

/-- Scenario C input: `class Color(Enum): RED = 1; GREEN = 2`. -/
def colorTwoMembers : PyVal.ClassDef :=
  { name := "Color", bases := [.name "Enum"],
    body := [.assign [.nameT "RED"], .assign [.nameT "GREEN"]], lineno := 1 }

/-- Example input: a property declared on a base type (inherited into the
analyzed type) whose name carries the "Temp" marker. -/
def c9Property : ST.PropertyInfo := { name := "TempCounter", declaringType := "Base" }

def c9Type : ST.DotNetType := { name := "Derived", properties := [c9Property] }

/-- Example input for the amended claim: a lambda-marker-named method. -/
def c9LambdaMethod : ST.MethodInfo :=
  { name := "b__0", declaringType := "Holder", methodBody := some [0x2A] }

def c9WitnessType : ST.DotNetType := { name := "Holder", methods := [c9LambdaMethod] }

/-- Example input for C10: a type yielding a nonempty report. -/
def c10Type : ST.DotNetType :=
  { name := "Widget",
    methods := [{ name := "DoWork", returnType := "System.Void",
                  declaringType := "Widget",
                  methodBody := some [0x73, 0x00, 0x00, 0x00, 0x00, 0x7A] }] }

/-! Helper lemmas about the individual Act checks. -/

theorem check_dead_code_eq_nil (t : ST.DotNetType) : ST.check_dead_code t = [] := by
  simp only [ST.check_dead_code, ST.dead_code_body]
  repeat' split <;> simp_all

theorem check_suspiciously_simple_eq_nil (m : ST.MethodInfo) (tn fp : String) :
    ST.check_suspiciously_simple m tn fp = [] := by
  unfold ST.check_suspiciously_simple ST.suspiciously_simple_cond
  cases m.methodBody with
  | none => rfl
  | some il => by_cases h : il.length ≤ 5 <;> simp [h]

theorem mem_check_todo {m : ST.MethodInfo} {tn fp : String} {v : StoryViolation}
    (hv : v ∈ ST.check_todo_and_placeholders m tn fp) :
    v.member = m.name ∧ v.line_number = 0 := by
  unfold ST.check_todo_and_placeholders at hv
  repeat' split at hv
  all_goals simp_all

theorem mem_check_unsealed {m : ST.MethodInfo} {t : ST.DotNetType} {fp : String}
    {v : StoryViolation} (hv : v ∈ ST.check_unsealed_abstract m t fp) :
    v.member = m.name ∧ v.line_number = 0 := by
  unfold ST.check_unsealed_abstract at hv
  repeat' split at hv
  all_goals simp_all

theorem mem_check_debug {m : ST.MethodInfo} {tn fp : String} {v : StoryViolation}
    (hv : v ∈ ST.check_debug_only m tn fp) :
    v.member = m.name ∧ v.line_number = 0 := by
  unfold ST.check_debug_only at hv
  repeat' split at hv
  all_goals simp_all

theorem mem_check_cold {m : ST.MethodInfo} {tn fp : String} {v : StoryViolation}
    (hv : v ∈ ST.check_cold_methods m tn fp) :
    v.member = m.name ∧ v.line_number = 0 := by
  unfold ST.check_cold_methods at hv
  repeat' split at hv
  all_goals simp_all

theorem mem_check_premature {m : ST.MethodInfo} {tn fp : String} {v : StoryViolation}
    (hv : v ∈ ST.check_premature_celebrations m tn fp) :
    v.member = m.name ∧ v.line_number = 0 := by
  unfold ST.check_premature_celebrations at hv
  repeat' split at hv
  all_goals simp_all

theorem mem_check_phantom {p : ST.PropertyInfo} {tn fp : String} {v : StoryViolation}
    (hv : v ∈ ST.check_phantom_props p tn fp) :
    v.member = p.name ∧ v.line_number = 0 := by
  unfold ST.check_phantom_props at hv
  repeat' split at hv
  all_goals simp_all

theorem mem_check_incomplete {t : ST.DotNetType} {fp : String} {v : StoryViolation}
    (hv : v ∈ ST.check_incomplete_classes t fp) :
    v.member = t.name ∧ v.line_number = 0 := by
  unfold ST.check_incomplete_classes at hv
  repeat' split at hv
  all_goals simp_all

theorem mem_check_hollow {t : ST.DotNetType} {fp : String} {v : StoryViolation}
    (hv : v ∈ ST.check_hollow_enums t fp) :
    v.member = t.name ∧ v.line_number = 0 := by
  unfold ST.check_hollow_enums at hv
  repeat' split at hv
  all_goals simp_all

theorem mem_validate_method {t : ST.DotNetType} {m : ST.MethodInfo} {fp : String}
    {v : StoryViolation} (hv : v ∈ ST.validate_method t m fp) :
    ST.method_exempt t m = false ∧ v.member = m.name ∧ v.line_number = 0 := by
  unfold ST.validate_method at hv
  split at hv
  · simp at hv
  · rename_i h
    rw [check_dead_code_eq_nil, check_suspiciously_simple_eq_nil] at hv
    simp only [List.append_nil, List.mem_append] at hv
    refine ⟨by simpa using h, ?_⟩
    rcases hv with (((h1 | h2) | h3) | h4) | h5
    · exact mem_check_todo h1
    · exact mem_check_unsealed h2
    · exact mem_check_debug h3
    · exact mem_check_cold h4
    · exact mem_check_premature h5

theorem mem_validate_property {t : ST.DotNetType} {p : ST.PropertyInfo} {fp : String}
    {v : StoryViolation} (hv : v ∈ ST.validate_property t p fp) :
    v.member = p.name ∧ v.line_number = 0 := by
  unfold ST.validate_property at hv
  split at hv
  · simp at hv
  · exact mem_check_phantom hv

theorem mem_validate_type {t : ST.DotNetType} {v : StoryViolation}
    (hv : v ∈ ST.validate_type t) :
    v.line_number = 0 ∧
      (v.member = t.name ∨
       (∃ m ∈ t.methods, ST.method_exempt t m = false ∧ v.member = m.name) ∨
       (∃ p ∈ t.properties, v.member = p.name)) := by
  unfold ST.validate_type at hv
  split at hv
  · simp at hv
  · simp only [List.mem_append] at hv
    rcases hv with ((h1 | h2) | h3) | h4
    · exact ⟨(mem_check_incomplete h1).2, Or.inl (mem_check_incomplete h1).1⟩
    · split at h2
      · exact ⟨(mem_check_hollow h2).2, Or.inl (mem_check_hollow h2).1⟩
      · simp at h2
    · rw [List.mem_flatMap] at h3
      obtain ⟨m, hm, hvm⟩ := h3
      obtain ⟨hex, hmem, hln⟩ := mem_validate_method hvm
      exact ⟨hln, Or.inr (Or.inl ⟨m, hm, hex, hmem⟩)⟩
    · rw [List.mem_flatMap] at h4
      obtain ⟨p, hp, hvp⟩ := h4
      obtain ⟨hmem, hln⟩ := mem_validate_property hvp
      exact ⟨hln, Or.inr (Or.inr ⟨p, hp, hmem⟩)⟩

theorem mem_core_validate_method_line {t : Core.CoreType} {m : Core.CoreMethod}
    {fp : String} {v : StoryViolation} (hv : v ∈ Core.core_validate_method t m fp) :
    v.line_number = 0 := by
  unfold Core.core_validate_method at hv
  repeat' split at hv
  all_goals simp_all
  all_goals rcases hv with rfl | rfl <;> rfl

theorem mem_core_validate_type_line {t : Core.CoreType} {v : StoryViolation}
    (hv : v ∈ Core.core_validate_type t) : v.line_number = 0 := by
  unfold Core.core_validate_type at hv
  split at hv
  · simp at hv
  · rw [List.mem_flatMap] at hv
    obtain ⟨m, _, hvm⟩ := hv
    exact mem_core_validate_method_line hvm

/-! Claim theorems. -/

/-- C1: the claim demands exactly one UnusedCode violation for a field no
other body references.  The dead-code rule can never report anything: the
helper predicates `ILAnalyzer.is_field_read` / `is_method_invoked` /
`is_property_accessed` it calls are not defined anywhere, so the check
raises `AttributeError` on the first member and its blanket handler
swallows it.  In particular the type whose only field `unusedField` is
referenced nowhere yields no violation naming that field. -/
theorem dead_code_rule_reports_nothing :
    (∀ t : ST.DotNetType, ST.check_dead_code t = []) ∧
    (ST.validate_type c1Type).filter (fun v => v.member == "unusedField") = [] := by
  refine ⟨check_dead_code_eq_nil, by decide⟩

/-- C2: the claim demands an IncompleteImplementation violation from the
suspiciously-simple rule for any non-exempt method with a matching body of
at most 5 bytes.  The rule never fires: `ILAnalyzer.is_constant_return` and
`is_null_return` are not defined, so once the length guard passes, the
lookup raises `AttributeError` and the handler swallows it.  The concrete
method `[ldc.i4.0, ret]` (2 bytes, default-return shape) gets no
suspiciously-simple violation. -/
theorem suspicious_rule_reports_nothing :
    (∀ (m : ST.MethodInfo) (tn fp : String), ST.check_suspiciously_simple m tn fp = []) ∧
    ST.is_only_default_return "System.Int32" [0x16, 0x2A] = true ∧
    ([0x16, 0x2A] : List Nat).length ≤ 5 ∧
    (ST.validate_method c2Type c2Method "").filter (has_message suspicious_message) = [] := by
  refine ⟨check_suspiciously_simple_eq_nil, by decide, by decide, by decide⟩

/-- C3: the claim demands that a second `validate_assembly` call on the
same validator instance and unchanged input return the same violation
multiset.  The accumulator is never reset, so the second call returns the
first list with a duplicate appended: on an assembly producing one
violation the first call returns 1 entry and the second returns 2. -/
theorem validate_assembly_second_call_duplicates :
    (∀ (s : List StoryViolation) (a : Core.CoreAssembly),
      (Core.core_validate_assembly (Core.core_validate_assembly s a).1 a).2 =
        (Core.core_validate_assembly s a).2 ++ Core.core_run a) ∧
    (Core.core_validate_assembly [] c3Assembly).2.length = 1 ∧
    (Core.core_validate_assembly (Core.core_validate_assembly [] c3Assembly).1 c3Assembly).2.length = 2 ∧
    (Core.core_validate_assembly (Core.core_validate_assembly [] c3Assembly).1 c3Assembly).2 ≠
      (Core.core_validate_assembly [] c3Assembly).2 := by
  refine ⟨fun s a => rfl, by decide, by decide, by decide⟩

/-- C10: every violation built by either binary frontend leaves
`line_number` at its constructor default 0; no binary rule ever passes a
line number. -/
theorem binary_frontend_line_numbers_zero :
    (∀ types : List ST.DotNetType,
      (ST.validate_assembly types).all (fun v => v.line_number == 0) = true) ∧
    (∀ t : Core.CoreType,
      (Core.core_validate_type t).all (fun v => v.line_number == 0) = true) := by
  constructor
  · intro types
    rw [List.all_eq_true]
    intro v hv
    unfold ST.validate_assembly at hv
    rw [List.mem_flatMap] at hv
    obtain ⟨t, _, hvt⟩ := hv
    simp [(mem_validate_type hvt).1]
  · intro t
    rw [List.all_eq_true]
    intro v hv
    simp [mem_core_validate_type_line hv]

theorem ni_length {il : List Nat} (h : ST.contains_throw_not_implemented il = true) :
    6 ≤ il.length := by
  unfold ST.contains_throw_not_implemented at h
  rw [List.any_eq_true] at h
  obtain ⟨i, _, hcond⟩ := h
  simp only [Bool.and_eq_true, decide_eq_true_eq] at hcond
  omega

theorem check_todo_eq_ni {m : ST.MethodInfo} {il : List Nat} (tn fp : String)
    (hb : m.methodBody = some il) (hni : ST.contains_throw_not_implemented il = true) :
    ST.check_todo_and_placeholders m tn fp =
      [{ type_name := tn, member := m.name, violation := ni_message,
         violation_type := .incompleteImplementation, file_path := fp }] := by
  unfold ST.check_todo_and_placeholders
  rw [hb]
  simp [hni]

theorem check_todo_eq_default {m : ST.MethodInfo} {il : List Nat} (tn fp : String)
    (hb : m.methodBody = some il) (hni : ST.contains_throw_not_implemented il = false)
    (hdef : ST.is_only_default_return m.returnType il = true) :
    ST.check_todo_and_placeholders m tn fp =
      [{ type_name := tn, member := m.name, violation := default_return_message,
         violation_type := .incompleteImplementation, file_path := fp }] := by
  unfold ST.check_todo_and_placeholders
  rw [hb]
  simp [hni, hdef]

theorem check_unsealed_eq_nil_of_not_abstract {m : ST.MethodInfo} (t : ST.DotNetType)
    (fp : String) (h : m.isAbstract = false) : ST.check_unsealed_abstract m t fp = [] := by
  unfold ST.check_unsealed_abstract
  simp [h]

theorem check_cold_eq_nil_of_ni {m : ST.MethodInfo} {il : List Nat} (tn fp : String)
    (hb : m.methodBody = some il) (h : ST.contains_throw_not_implemented il = true) :
    ST.check_cold_methods m tn fp = [] := by
  have h6 := ni_length h
  unfold ST.check_cold_methods
  split
  · rfl
  · rw [hb]
    have hlen : ¬ il.length ≤ 3 := by omega
    simp [hlen]

theorem filter_incomplete_debug (m : ST.MethodInfo) (tn fp : String) :
    (ST.check_debug_only m tn fp).filter is_incomplete = [] := by
  unfold ST.check_debug_only
  repeat' split
  all_goals rfl

theorem filter_incomplete_premature (m : ST.MethodInfo) (tn fp : String) :
    (ST.check_premature_celebrations m tn fp).filter is_incomplete = [] := by
  unfold ST.check_premature_celebrations
  repeat' split
  all_goals rfl

theorem filter_default_msg_unsealed (m : ST.MethodInfo) (t : ST.DotNetType) (fp : String) :
    (ST.check_unsealed_abstract m t fp).filter (has_message default_return_message) = [] := by
  unfold ST.check_unsealed_abstract
  repeat' split
  all_goals rfl

theorem filter_default_msg_debug (m : ST.MethodInfo) (tn fp : String) :
    (ST.check_debug_only m tn fp).filter (has_message default_return_message) = [] := by
  unfold ST.check_debug_only
  repeat' split
  all_goals rfl

theorem filter_default_msg_cold (m : ST.MethodInfo) (tn fp : String) :
    (ST.check_cold_methods m tn fp).filter (has_message default_return_message) = [] := by
  unfold ST.check_cold_methods
  repeat' split
  all_goals rfl

theorem filter_default_msg_premature (m : ST.MethodInfo) (tn fp : String) :
    (ST.check_premature_celebrations m tn fp).filter (has_message default_return_message) = [] := by
  unfold ST.check_premature_celebrations
  repeat' split
  all_goals rfl

/-- C4 counterexample: the claim describes a THROW opcode followed within
the lookahead window by the construct-exception-object opcode.  In ECMA-335
THROW is `0x7A` and `newobj` is `0x73`, and the body
`[0x7A, 0, 0, 0, 0, 0x73]` matches that description — yet the code detects
only the opposite order (`0x73` at `i`, `0x7A` at exactly `i + 5`), so the
method produces no violation at all. -/
theorem throw_then_construct_order_not_detected :
    spec_throw_then_construct [0x7A, 0x00, 0x00, 0x00, 0x00, 0x73] = true ∧
    ST.contains_throw_not_implemented [0x7A, 0x00, 0x00, 0x00, 0x00, 0x73] = false ∧
    c4Method.methodBody = some [0x7A, 0x00, 0x00, 0x00, 0x00, 0x73] ∧
    ST.validate_method c4Type c4Method "" = [] := by
  refine ⟨by decide, by decide, rfl, by decide⟩

/-- C4 amended: for a non-exempt method with a body in which the
construct-exception-object opcode `0x73` is followed at the fixed 5-byte
offset by the THROW opcode `0x7A` (the pattern the code detects), exactly
one IncompleteImplementation violation is reported for that member, and
the default-only-return check is suppressed (first match wins): the lone
IncompleteImplementation entry carries the NotImplementedException
message, not the default-return message. -/
theorem throw_not_implemented_reports_exactly_one (t : ST.DotNetType)
    (m : ST.MethodInfo) (il : List Nat) (fp : String)
    (hb : m.methodBody = some il)
    (hni : ST.contains_throw_not_implemented il = true)
    (hex : ST.method_exempt t m = false)
    (habs : m.isAbstract = false) :
    (ST.validate_method t m fp).filter is_incomplete =
      [{ type_name := t.name, member := m.name, violation := ni_message,
         violation_type := .incompleteImplementation, file_path := fp }] := by
  unfold ST.validate_method
  split
  · simp_all
  · rw [check_todo_eq_ni t.name fp hb hni,
      check_unsealed_eq_nil_of_not_abstract t fp habs,
      check_cold_eq_nil_of_ni t.name fp hb hni,
      check_dead_code_eq_nil, check_suspiciously_simple_eq_nil]
    simp only [List.filter_append, List.nil_append, List.append_nil, List.filter_nil,
      filter_incomplete_debug, filter_incomplete_premature]
    rfl

/-- C4 witness: the amended theorem applied at a concrete method whose
body is `[newobj, 0, 0, 0, 0, throw]`. -/
theorem throw_not_implemented_reports_exactly_one_witness :
    c4CodeOrderMethod.methodBody = some [0x73, 0x00, 0x00, 0x00, 0x00, 0x7A] ∧
    ST.contains_throw_not_implemented [0x73, 0x00, 0x00, 0x00, 0x00, 0x7A] = true ∧
    ST.method_exempt c4CodeOrderType c4CodeOrderMethod = false ∧
    c4CodeOrderMethod.isAbstract = false ∧
    (ST.validate_method c4CodeOrderType c4CodeOrderMethod "").filter is_incomplete =
      [{ type_name := "Widget", member := "DoWork", violation := ni_message,
         violation_type := .incompleteImplementation, file_path := "" }] :=
  ⟨rfl, by decide, by decide, rfl,
    throw_not_implemented_reports_exactly_one c4CodeOrderType c4CodeOrderMethod
      [0x73, 0x00, 0x00, 0x00, 0x00, 0x7A] "" rfl (by decide) (by decide) rfl⟩

/-- C6 counterexample: a non-void method whose 6-byte body satisfies the
default-return shape (`0x16` immediately followed by `0x2A`, length at
most 8) but also matches the NotImplemented pattern; the claim demands a
default-only-return violation, yet first-match-wins suppression leaves
none. -/
theorem default_return_suppressed_counterexample :
    ST.is_only_default_return c6SuppressedMethod.returnType
      [0x73, 0x16, 0x2A, 0x00, 0x00, 0x7A] = true ∧
    ([0x73, 0x16, 0x2A, 0x00, 0x00, 0x7A] : List Nat).length ≤ 8 ∧
    c6SuppressedMethod.methodBody = some [0x73, 0x16, 0x2A, 0x00, 0x00, 0x7A] ∧
    ST.method_exempt c6SuppressedType c6SuppressedMethod = false ∧
    (ST.validate_method c6SuppressedType c6SuppressedMethod "").filter
      (has_message default_return_message) = [] := by
  refine ⟨by decide, by decide, rfl, by decide, by decide⟩

/-- C6 amended: for a non-exempt, non-void method whose body is at most 8
bytes, contains a load-constant opcode immediately followed by RETURN, and
does not match the throw-NotImplemented pattern, exactly one
default-only-return violation of kind IncompleteImplementation is
reported. -/
theorem default_return_reported_unless_suppressed (t : ST.DotNetType)
    (m : ST.MethodInfo) (il : List Nat) (fp : String)
    (hb : m.methodBody = some il)
    (hdef : ST.is_only_default_return m.returnType il = true)
    (hni : ST.contains_throw_not_implemented il = false)
    (hex : ST.method_exempt t m = false) :
    (ST.validate_method t m fp).filter (has_message default_return_message) =
      [{ type_name := t.name, member := m.name, violation := default_return_message,
         violation_type := .incompleteImplementation, file_path := fp }] := by
  unfold ST.validate_method
  split
  · simp_all
  · rw [check_todo_eq_default t.name fp hb hni hdef,
      check_dead_code_eq_nil, check_suspiciously_simple_eq_nil]
    simp only [List.filter_append, List.nil_append, List.append_nil, List.filter_nil,
      filter_default_msg_unsealed, filter_default_msg_debug, filter_default_msg_cold,
      filter_default_msg_premature]
    rfl

/-- C6 witness: scenario A, the 2-byte non-void body `[ldc.i4.0, ret]`
yields exactly the one default-only-return violation. -/
theorem default_return_reported_unless_suppressed_witness :
    c6Method.methodBody = some [0x16, 0x2A] ∧
    ST.is_only_default_return c6Method.returnType [0x16, 0x2A] = true ∧
    ST.contains_throw_not_implemented [0x16, 0x2A] = false ∧
    ST.method_exempt c6Type c6Method = false ∧
    (ST.validate_method c6Type c6Method "").filter (has_message default_return_message) =
      [{ type_name := "Widget", member := "GetCount", violation := default_return_message,
         violation_type := .incompleteImplementation, file_path := "" }] :=
  ⟨rfl, by decide, by decide, by decide,
    default_return_reported_unless_suppressed c6Type c6Method [0x16, 0x2A] ""
      rfl (by decide) (by decide) (by decide)⟩

/-- C5 counterexample: the claim says a file that fails to parse
contributes no violations of any kind.  The TODO/FIXME comment scan runs
before `ast.parse`, so a file with a TODO comment and a syntax error still
contributes its comment-scan violation. -/
theorem unparseable_file_still_reports_todo :
    c5File.parsed = none ∧
    PyVal.validate_python_path [c5File] =
      [{ type_name := "bad", member := "<module>",
         violation := "Comment contains TODO/FIXME: # TODO: fix this",
         violation_type := .incompleteImplementation, file_path := "bad.py",
         line_number := 1 }] := by
  refine ⟨rfl, by decide⟩

/-- C5 amended: a file that fails to parse contributes exactly its
comment-scan TODO/FIXME violations and no AST-based violations, and the
analysis of sibling files before and after it proceeds unaffected. -/
theorem parse_failure_skips_ast_checks_only (fs1 fs2 : List PyVal.PyFile)
    (f : PyVal.PyFile) (h : f.parsed = none) :
    PyVal.process_file f = (PyVal.todo_or_fixme_hits f.tokens).map (PyVal.todo_violation f) ∧
    PyVal.validate_python_path (fs1 ++ f :: fs2) =
      PyVal.validate_python_path fs1 ++ PyVal.process_file f ++
        PyVal.validate_python_path fs2 := by
  constructor
  · unfold PyVal.process_file
    rw [h]
  · unfold PyVal.validate_python_path
    rw [List.flatMap_append, List.flatMap_cons, List.append_assoc]

/-- C5 witness: the amended theorem applied with one healthy sibling. -/
theorem parse_failure_skips_ast_checks_only_witness :
    c5File.parsed = none ∧
    PyVal.validate_python_path ([c5GoodFile] ++ c5File :: []) =
      PyVal.validate_python_path [c5GoodFile] ++ PyVal.process_file c5File ++
        PyVal.validate_python_path [] :=
  ⟨rfl, (parse_failure_skips_ast_checks_only [c5GoodFile] [] c5File rfl).2⟩

theorem raise_violations_eq_nil (mn fp : String) {f : PyVal.FunctionDef}
    (h : PyVal.is_pass_or_ellipsis_only f.body = true) :
    PyVal.raise_violations mn fp f = [] := by
  unfold PyVal.raise_violations
  rw [List.flatMap_eq_nil_iff]
  intro stmt hs
  unfold PyVal.is_pass_or_ellipsis_only at h
  rw [List.all_eq_true] at h
  have hstub := h stmt hs
  cases stmt <;> simp_all

theorem returns_constant_only_eq_none {f : PyVal.FunctionDef}
    (h : PyVal.is_pass_or_ellipsis_only f.body = true) :
    PyVal.returns_constant_only f = none := by
  unfold PyVal.returns_constant_only
  set l := f.body.filter (fun s => !PyVal.is_docstring_expr s) with hl
  cases hml : l with
  | nil => rfl
  | cons x xs =>
    have hx : x ∈ f.body := by
      have hmem : x ∈ l := by rw [hml]; exact List.mem_cons_self x xs
      rw [hl] at hmem
      exact (List.mem_filter.1 hmem).1
    unfold PyVal.is_pass_or_ellipsis_only at h
    rw [List.all_eq_true] at h
    have hstub := h x hx
    cases x <;> simp_all

/-- C7: a function whose body consists solely of pass statements, ellipsis
expressions and docstring literals gets exactly one violation from the
per-function processing: the stub violation of kind
IncompleteImplementation. -/
theorem stub_function_reports_exactly_one (mn fp : String) (f : PyVal.FunctionDef)
    (h : PyVal.is_pass_or_ellipsis_only f.body = true) :
    PyVal.process_function mn fp f =
      [{ type_name := mn, member := f.name, violation := stub_message,
         violation_type := .incompleteImplementation, file_path := fp,
         line_number := f.lineno }] := by
  unfold PyVal.process_function
  rw [raise_violations_eq_nil mn fp h, returns_constant_only_eq_none h]
  simp [h]

/-- C7 witness: a docstring followed by pass. -/
theorem stub_function_reports_exactly_one_witness :
    PyVal.is_pass_or_ellipsis_only c7Function.body = true ∧
    PyVal.process_function "mod" "mod.py" c7Function =
      [{ type_name := "mod", member := "do_stuff", violation := stub_message,
         violation_type := .incompleteImplementation, file_path := "mod.py",
         line_number := 7 }] :=
  ⟨by decide, stub_function_reports_exactly_one "mod" "mod.py" c7Function (by decide)⟩

theorem countP_hollow_placeholder (mn fp : String) (c : PyVal.ClassDef) :
    (PyVal.placeholder_class_violations mn fp c).countP
      (has_message hollow_enum_message) = 0 := by
  unfold PyVal.placeholder_class_violations
  split
  · rfl
  · rfl

theorem detect_enum_hollow_iff {c : PyVal.ClassDef}
    (h : PyVal.inherits_enum_base c = true) :
    PyVal.detect_enum_hollow c = decide (PyVal.meaningful_member_count c ≤ 1) := by
  unfold PyVal.detect_enum_hollow
  rw [h]
  simp

/-- C8: a class inheriting the enumeration base type is reported as a
hollow enum exactly when its non-dunder, non-placeholder-named members
number at most 1; `class Color(Enum): RED = 1` yields one hollow-enum
violation and `class Color(Enum): RED = 1; GREEN = 2` yields none. -/
theorem hollow_enum_iff_meaningful_at_most_one :
    (∀ (mn fp : String) (c : PyVal.ClassDef), PyVal.inherits_enum_base c = true →
      ((PyVal.process_class mn fp c).countP (has_message hollow_enum_message) = 1 ↔
        PyVal.meaningful_member_count c ≤ 1)) ∧
    (PyVal.process_class "mod" "color.py" colorOneMember).countP
      (has_message hollow_enum_message) = 1 ∧
    (PyVal.process_class "mod" "color.py" colorTwoMembers).countP
      (has_message hollow_enum_message) = 0 := by
  refine ⟨?_, by decide, by decide⟩
  intro mn fp c h
  unfold PyVal.process_class
  rw [List.countP_append, countP_hollow_placeholder]
  unfold PyVal.hollow_enum_violations
  rw [detect_enum_hollow_iff h]
  by_cases hm : PyVal.meaningful_member_count c ≤ 1
  · simp [hm, has_message, List.countP_cons, List.countP_nil]
  · simp [hm, List.countP_nil]

/-- C8 witness: the iff applied at scenario B. -/
theorem hollow_enum_iff_meaningful_at_most_one_witness :
    PyVal.inherits_enum_base colorOneMember = true ∧
    ((PyVal.process_class "mod" "color.py" colorOneMember).countP
        (has_message hollow_enum_message) = 1 ↔
      PyVal.meaningful_member_count colorOneMember ≤ 1) :=
  ⟨by decide,
    hollow_enum_iff_meaningful_at_most_one.1 "mod" "color.py" colorOneMember (by decide)⟩

/-- C9 counterexample: the claim says an inherited member never appears as
the member of any violation.  The property path applies only the
StoryIgnore filter, so a property declared on the base type whose name
carries the "Temp" marker is still reported by the phantom-property rule
in the derived type. -/
theorem inherited_property_reported_counterexample :
    c9Property.declaringType ≠ c9Type.name ∧
    c9Property ∈ c9Type.properties ∧
    ST.validate_type c9Type =
      [{ type_name := "Derived", member := "TempCounter", violation := phantom_message,
         violation_type := .unusedCode, file_path := "", line_number := 0 }] := by
  refine ⟨by decide, by decide, by decide⟩

/-- C9 amended: for methods the exemption is airtight — a lambda/closure
marker name or an inherited declaration makes the method exempt, and the
name of a member all of whose method declarations are exempt (and that no
property or the type itself shares) never appears as the member of any
violation of the type analysis.  Properties are only filtered by the
StoryIgnore attribute. -/
theorem exempt_method_never_reported :
    (∀ (t : ST.DotNetType) (m : ST.MethodInfo),
      strContains m.name "b__" = true → ST.method_exempt t m = true) ∧
    (∀ (t : ST.DotNetType) (m : ST.MethodInfo),
      m.declaringType ≠ t.name → ST.method_exempt t m = true) ∧
    (∀ (t : ST.DotNetType) (nm : String),
      (∀ m ∈ t.methods, m.name = nm → ST.method_exempt t m = true) →
      (∀ p ∈ t.properties, p.name ≠ nm) →
      t.name ≠ nm →
      (ST.validate_type t).all (fun v => !(v.member == nm)) = true) := by
  refine ⟨?_, ?_, ?_⟩
  · intro t m h
    unfold ST.method_exempt ST.is_compiler_generated
    simp [h]
  · intro t m h
    unfold ST.method_exempt
    simp [bne_iff_ne, h]
  · intro t nm hm hp ht
    rw [List.all_eq_true]
    intro v hv
    obtain ⟨-, hmem⟩ := mem_validate_type hv
    rcases hmem with h1 | ⟨m, hmm, hex, hname⟩ | ⟨p, hpp, hname⟩
    · simp [h1]
      exact ht
    · simp [hname]
      intro hq
      rw [hm m hmm hq] at hex
      cases hex
    · simp [hname]
      exact hp p hpp

/-- C9 witness: a type whose only method carries the lambda marker
`b__`. -/
theorem exempt_method_never_reported_witness :
    strContains c9LambdaMethod.name "b__" = true ∧
    (ST.validate_type c9WitnessType).all (fun v => !(v.member == "b__0")) = true :=
  ⟨by decide,
    exempt_method_never_reported.2.2 c9WitnessType "b__0"
      (by decide) (by decide) (by decide)⟩
